import Mathlib

/-!
Verification of the stactools core I/O layer (`src/stactools/core/io/__init__.py`):
a shallow embedding of the facade functions `read_text` / `write_text`, the
backend-aware strategy `FsspecStacIO`, and the global installer `use_fsspec`,
together with theorems settling the behavioral claims of the specification.

The external collaborators (the fsspec storage backend and the pystac default
I/O strategy machinery) are modelled as explicit state: the backend is an
association list from hrefs to payloads plus a set of injected write faults,
and every observable action (opening a resource, closing it, emitting a
deprecation notice) is recorded in an event trace.  Python exceptions are
modelled with `Except`.
-/

instance {ε α : Type} [DecidableEq ε] [DecidableEq α] : DecidableEq (Except ε α)
  | Except.error e, Except.error e' => decidable_of_iff (e = e') (by simp)
  | Except.error _, Except.ok _ => isFalse (by simp)
  | Except.ok _, Except.error _ => isFalse (by simp)
  | Except.ok a, Except.ok a' => decidable_of_iff (a = a') (by simp)

/-- Python errors that can surface through this layer.  `valueError` is the
`ValueError` raised by the code on an undecodable payload (the spec's error
taxonomy calls this case `DecodeError`); `unicodeDecodeError` is the error
raised by a strict UTF-8 decode of invalid bytes; `backendError` stands for
any storage-backend failure; `modifierError` for a failure raised by a
caller-supplied href modifier. -/
inductive PyErr where
  | valueError (msg : String)
  | unicodeDecodeError
  | backendError (msg : String)
  | modifierError (msg : String)
deriving DecidableEq

/-- What a backend read (`f.read()` after `fsspec.open(href, "r")`) yields for
a stored resource: a string, a byte sequence (bytes as numbers 0..255), some
other unsupported object (e.g. an integer, kept as its printed form), or a
backend fault raised during the read itself. -/
inductive Payload where
  | str (s : String)
  | bytes (bs : List Nat)
  | other (repr : String)
  | raiseOnRead (e : PyErr)
deriving DecidableEq

/-- Keyword options (Python `**kwargs`), modelled as an opaque association
list of keyword/value strings; this layer only forwards them. -/
abbrev KwArgs : Type := List (String × String)

/-- Observable events of a run: opening a resource for read or write (with
the options passed to the backend open call), closing it, and emitting a
deprecation notice (old name, replacement name, removal version). -/
inductive Event where
  | openR (href : String) (options : KwArgs)
  | openW (href : String) (options : KwArgs)
  | close (href : String)
  | deprecationNotice (old replacement version : String)
deriving DecidableEq

/-- Association-list lookup keyed by href (first match wins). -/
def alookup {α : Type} : List (String × α) → String → Option α
  | [], _ => none
  | (k, v) :: rest, h => if k = h then some v else alookup rest h

/-- The storage backend's state: the stored resources, the injected write
faults (hrefs at which a write raises mid-call, modelling a backend fault),
and the trace of observable events so far. -/
structure Backend where
  store : List (String × Payload)
  writeFault : List (String × PyErr)
  trace : List Event
deriving DecidableEq

/-- Is a byte a UTF-8 continuation byte (0x80..0xBF)? -/
def isUtf8Cont (b : Nat) : Bool := 0x80 ≤ b && b < 0xC0

/-- Strict UTF-8 decoding of one scalar value from a byte list, as Python's
`str(bs, encoding="utf-8")` would: rejects overlong encodings, surrogates and
out-of-range values.  Returns the decoded character and the remaining bytes. -/
def utf8DecodeChar : List Nat → Option (Char × List Nat)
  | [] => none
  | b0 :: rest =>
    if b0 < 0x80 then some (Char.ofNat b0, rest)
    else if b0 < 0xC2 then none
    else if b0 < 0xE0 then
      match rest with
      | b1 :: rest1 =>
        if isUtf8Cont b1 then
          some (Char.ofNat ((b0 - 0xC0) * 0x40 + (b1 - 0x80)), rest1)
        else none
      | [] => none
    else if b0 < 0xF0 then
      match rest with
      | b1 :: b2 :: rest2 =>
        let v := (b0 - 0xE0) * 0x1000 + (b1 - 0x80) * 0x40 + (b2 - 0x80)
        if isUtf8Cont b1 ∧ isUtf8Cont b2 ∧ 0x800 ≤ v ∧ (v < 0xD800 ∨ 0xE000 ≤ v) then
          some (Char.ofNat v, rest2)
        else none
      | _ => none
    else if b0 < 0xF5 then
      match rest with
      | b1 :: b2 :: b3 :: rest3 =>
        let v := (b0 - 0xF0) * 0x40000 + (b1 - 0x80) * 0x1000 + (b2 - 0x80) * 0x40 + (b3 - 0x80)
        if isUtf8Cont b1 ∧ isUtf8Cont b2 ∧ isUtf8Cont b3 ∧ 0x10000 ≤ v ∧ v < 0x110000 then
          some (Char.ofNat v, rest3)
        else none
      | _ => none
    else none

/-- Fuel-driven loop decoding a whole byte list to characters; each step
consumes at least one byte, so fuel equal to the list length suffices. -/
def utf8DecodeList : Nat → List Nat → Option (List Char)
  | _, [] => some []
  | 0, _ :: _ => none
  | fuel + 1, bs =>
    match utf8DecodeChar bs with
    | some (c, rest) => (utf8DecodeList fuel rest).map (fun cs => c :: cs)
    | none => none

/-- Strict UTF-8 decoding of a byte list to a string (Python
`str(bs, encoding="utf-8")`); `none` models a raised `UnicodeDecodeError`. -/
def utf8Decode (bs : List Nat) : Option String :=
  (utf8DecodeList bs.length bs).map List.asString

/-- An argument passed in the `href` position: a plain `str`, or an
`os.PathLike` object whose `__fspath__()` method returns the given string. -/
inductive HrefArg where
  | str (s : String)
  | pathLike (s : String)
deriving DecidableEq

/-- Python's `os.fspath`: the identity on `str`, and the result of
`__fspath__()` on a path-like object. -/
def fspath : HrefArg → String
  | .str s => s
  | .pathLike s => s

/-- `FsspecStacIO.read_text_from_href`: normalizes the href with `os.fspath`,
opens it for reading through fsspec inside a `with` block (so the handle is
closed on every exit path), reads the payload eagerly, returns a string
payload as-is, decodes a bytes payload as UTF-8, and raises `ValueError` on
any other payload type.  An absent resource makes the backend open fail
before any handle exists. -/
def FsspecStacIO.read_text_from_href (href : HrefArg) (kwargs : KwArgs)
    (b : Backend) : Except PyErr String × Backend :=
  let h := fspath href
  match alookup b.store h with
  | none => (Except.error (PyErr.backendError ("FileNotFoundError: " ++ h)), b)
  | some p =>
    let b1 : Backend := { b with trace := b.trace ++ [Event.openR h kwargs] }
    let step : Except PyErr String × Backend :=
      match p with
      | .str s => (Except.ok s, b1)
      | .bytes bs =>
        match utf8Decode bs with
        | some s => (Except.ok s, b1)
        | none => (Except.error PyErr.unicodeDecodeError, b1)
      | .other _ =>
        (Except.error (PyErr.valueError ("Unable to decode data loaded from HREF: " ++ h)), b1)
      | .raiseOnRead e => (Except.error e, b1)
    (step.1, { step.2 with trace := step.2.trace ++ [Event.close h] })

/-- `FsspecStacIO.write_text_to_href`: normalizes the href with `os.fspath`,
opens it for writing through fsspec inside a `with` block, writes the whole
text (an injected write fault makes the write raise mid-call), and closes the
handle on both the normal and the raising path. -/
def FsspecStacIO.write_text_to_href (href : HrefArg) (txt : String) (kwargs : KwArgs)
    (b : Backend) : Except PyErr Unit × Backend :=
  let h := fspath href
  let b1 : Backend := { b with trace := b.trace ++ [Event.openW h kwargs] }
  match alookup b.writeFault h with
  | some e => (Except.error e, { b1 with trace := b1.trace ++ [Event.close h] })
  | none =>
    (Except.ok (),
      { b1 with
        store := (h, Payload.str txt) :: b1.store,
        trace := b1.trace ++ [Event.close h] })

/-- Modelled from the spec: `stactools.core.utils.deprecate` is repository
code outside the provided sources; per the spec the deprecated alias "emits a
deprecation notice naming the replacement and the version after which it will
be removed".  Modelled as appending a deprecation-notice event to the trace. -/
def deprecate (old replacement version : String) (b : Backend) : Backend :=
  { b with trace := b.trace ++ [Event.deprecationNotice old replacement version] }

/-- `FsspecStacIO.write_text_from_href` (deprecated alias): emits the
deprecation notice naming the replacement and removal version, then forwards
unchanged to `write_text_to_href`. -/
def FsspecStacIO.write_text_from_href (href : HrefArg) (txt : String) (kwargs : KwArgs)
    (b : Backend) : Except PyErr Unit × Backend :=
  FsspecStacIO.write_text_to_href href txt kwargs
    (deprecate "FsspecStacIO.write_text_from_href" "FsspecStacIO.write_text_to_href" "v0.5.0" b)

/-- A pystac I/O strategy as this layer consumes it: the capability set the
facade functions call on `StacIO.default()`.  The strategy methods act on the
backend state only; they cannot change which strategy is installed. -/
structure Strategy where
  read_text_from_href : HrefArg → KwArgs → Backend → Except PyErr String × Backend
  write_text_from_href : HrefArg → String → KwArgs → Backend → Except PyErr Unit × Backend
  write_text_to_href : HrefArg → String → KwArgs → Backend → Except PyErr Unit × Backend

/-- The `FsspecStacIO` class packaged as a strategy value (what
`StacIO.set_default(FsspecStacIO)` installs). -/
def fsspecStacIO : Strategy :=
  { read_text_from_href := FsspecStacIO.read_text_from_href
    write_text_from_href := FsspecStacIO.write_text_from_href
    write_text_to_href := FsspecStacIO.write_text_to_href }

/-- The process state the facade functions see: the backend plus the
process-wide default I/O strategy currently installed. -/
structure World where
  backend : Backend
  default : Strategy

/-- Lift a strategy result on the backend state back into the world. -/
def liftB {α : Type} (w : World) (p : Except PyErr α × Backend) :
    Except PyErr α × World :=
  (p.1, { w with backend := p.2 })

/-- A caller-supplied href modifier (`ReadHrefModifier = Callable[[str], str]`);
as any Python callable it may also raise, modelled by the `Except`. -/
abbrev ReadHrefModifier : Type := String → Except PyErr String

/-- Facade `read_text(href, read_href_modifier=None, **kwargs)`: with no
modifier, forwards the href and the options verbatim to the default
strategy's `read_text_from_href`; with a modifier, applies it to the href and
calls the default strategy's `read_text_from_href` on the modified href with
no options. -/
def read_text (href : String) (read_href_modifier : Option ReadHrefModifier)
    (kwargs : KwArgs) (w : World) : Except PyErr String × World :=
  match read_href_modifier with
  | none => liftB w (w.default.read_text_from_href (HrefArg.str href) kwargs w.backend)
  | some m =>
    match m href with
    | Except.error e => (Except.error e, w)
    | Except.ok h2 => liftB w (w.default.read_text_from_href (HrefArg.str h2) [] w.backend)

/-- Facade `write_text(href, txt, **kwargs)`: calls
`StacIO.default().write_text_from_href(href, txt, **kwargs)` — the deprecated
alias name — forwarding href, text and options verbatim to it. -/
def write_text (href : String) (txt : String) (kwargs : KwArgs) (w : World) :
    Except PyErr Unit × World :=
  liftB w (w.default.write_text_from_href (HrefArg.str href) txt kwargs w.backend)

/-- `use_fsspec()`: installs `FsspecStacIO` as the process-wide default
pystac I/O strategy. -/
def use_fsspec (w : World) : World :=
  { w with default := fsspecStacIO }

/-! ## Shared concrete state for witnesses -/

/-- A concrete backend with a string resource, a UTF-8 bytes resource, an
undecodable resource, a resource whose read raises, and one write fault. -/
def demoBackend : Backend :=
  { store := [("ha", Payload.str "alpha"),
              ("hb", Payload.bytes [104, 101, 108, 108, 111]),
              ("ho", Payload.other "7"),
              ("hr", Payload.raiseOnRead (PyErr.backendError "network down"))]
    writeFault := [("hw", PyErr.backendError "disk full")]
    trace := [] }

/-- A concrete world with the backend-aware strategy installed. -/
def demoWorld : World := { backend := demoBackend, default := fsspecStacIO }

/-! ## Helper lemmas -/

/-- The result and the resulting store of a backend-aware write do not depend
on the event trace already accumulated. -/
theorem write_text_to_href_trace_independent (hr : HrefArg) (t : String) (k : KwArgs)
    (b : Backend) (tr : List Event) :
    ( FsspecStacIO.write_text_to_href hr t k { b with trace := tr }).1
      = ( FsspecStacIO.write_text_to_href hr t k b).1
    ∧ ( FsspecStacIO.write_text_to_href hr t k { b with trace := tr }).2.store
      = ( FsspecStacIO.write_text_to_href hr t k b).2.store := by
  cases hf : alookup b.writeFault (fspath hr) <;>
    simp [ FsspecStacIO.write_text_to_href, hf]

/-! ## Claim theorems -/

/-- C1: for every href, modifier and options, `read_text` with a modifier
reads from the modified href via the current default strategy's read
operation and does not forward the options in that branch; with no modifier,
the options are forwarded verbatim to the strategy's `read_text_from_href`. -/
theorem c1_read_text_modifier_semantics (h h2 : String) (m : ReadHrefModifier)
    (k : KwArgs) (w : World) (hm : m h = Except.ok h2) :
    read_text h (some m) k w
      = liftB w (w.default.read_text_from_href (HrefArg.str h2) [] w.backend)
    ∧ read_text h none k w
      = liftB w (w.default.read_text_from_href (HrefArg.str h) k w.backend) := by
  constructor
  · simp [read_text, hm]
  · rfl

/-- Witness for C1 at a concrete modifier, href, option set and world. -/
theorem c1_witness :
    (fun _ => Except.ok "ha" : ReadHrefModifier) "hx" = Except.ok "ha"
    ∧ (read_text "hx" (some fun _ => Except.ok "ha") [("k", "v")] demoWorld
        = liftB demoWorld
            (demoWorld.default.read_text_from_href (HrefArg.str "ha") [] demoWorld.backend)
      ∧ read_text "hx" none [("k", "v")] demoWorld
        = liftB demoWorld
            (demoWorld.default.read_text_from_href (HrefArg.str "hx") [("k", "v")] demoWorld.backend)) :=
  ⟨rfl, c1_read_text_modifier_semantics "hx" "ha" (fun _ => Except.ok "ha") [("k", "v")]
    demoWorld rfl⟩

/-- C3: when the backend read yields a value that is neither a string nor a
byte sequence, the backend-aware read fails with the decode error (the code's
`ValueError`, the spec's `DecodeError`) instead of returning a value. -/
theorem c3_read_unsupported_payload_fails (hr : HrefArg) (k : KwArgs) (b : Backend)
    (r : String) (hs : alookup b.store (fspath hr) = some (Payload.other r)) :
    FsspecStacIO.read_text_from_href hr k b
      = (Except.error (PyErr.valueError ("Unable to decode data loaded from HREF: " ++ fspath hr)),
         { b with trace := b.trace ++ [Event.openR (fspath hr) k, Event.close (fspath hr)] }) := by
  simp [ FsspecStacIO.read_text_from_href, hs]

/-- Witness for C3 at a concrete backend whose resource holds an integer. -/
theorem c3_witness :
    alookup demoBackend.store (fspath (HrefArg.str "ho")) = some (Payload.other "7")
    ∧ FsspecStacIO.read_text_from_href (HrefArg.str "ho") [] demoBackend
      = (Except.error
          (PyErr.valueError ("Unable to decode data loaded from HREF: " ++ fspath (HrefArg.str "ho"))),
         { demoBackend with
            trace := demoBackend.trace
              ++ [Event.openR (fspath (HrefArg.str "ho")) [],
                  Event.close (fspath (HrefArg.str "ho"))] }) :=
  ⟨by decide, c3_read_unsupported_payload_fails (HrefArg.str "ho") [] demoBackend "7" (by decide)⟩

/-- C4: a string payload is returned unchanged (no double decoding) and a
bytes payload is returned decoded as UTF-8 by the backend-aware read. -/
theorem c4_read_str_passthrough_bytes_decoded :
    (∀ (hr : HrefArg) (k : KwArgs) (b : Backend) (s : String),
      alookup b.store (fspath hr) = some (Payload.str s) →
      ( FsspecStacIO.read_text_from_href hr k b).1 = Except.ok s)
    ∧ (∀ (hr : HrefArg) (k : KwArgs) (b : Backend) (bs : List Nat) (s : String),
      alookup b.store (fspath hr) = some (Payload.bytes bs) →
      utf8Decode bs = some s →
      ( FsspecStacIO.read_text_from_href hr k b).1 = Except.ok s) := by
  constructor
  · intro hr k b s hs
    simp [ FsspecStacIO.read_text_from_href, hs]
  · intro hr k b bs s hs hd
    simp [ FsspecStacIO.read_text_from_href, hs, hd]

/-- Witness for C4: the string resource is passed through and the byte
sequence of "hello" decodes to the string "hello". -/
theorem c4_witness :
    ( FsspecStacIO.read_text_from_href (HrefArg.str "ha") [] demoBackend).1 = Except.ok "alpha"
    ∧ utf8Decode [104, 101, 108, 108, 111] = some "hello"
    ∧ ( FsspecStacIO.read_text_from_href (HrefArg.str "hb") [] demoBackend).1 = Except.ok "hello" :=
  ⟨c4_read_str_passthrough_bytes_decoded.1 (HrefArg.str "ha") [] demoBackend "alpha" (by decide),
   by decide,
   c4_read_str_passthrough_bytes_decoded.2 (HrefArg.str "hb") [] demoBackend
     [104, 101, 108, 108, 111] "hello" (by decide) (by decide)⟩

/-- C6: the deprecated alias `write_text_from_href` equals a
deprecation-notice emission (naming the replacement and removal version)
followed by `write_text_to_href` unchanged; its return value and store effect
equal those of `write_text_to_href`, the traces differing only by the
notice. -/
theorem c6_deprecated_alias_equivalence (hr : HrefArg) (t : String) (k : KwArgs) (b : Backend) :
    FsspecStacIO.write_text_from_href hr t k b
      = FsspecStacIO.write_text_to_href hr t k
          (deprecate "FsspecStacIO.write_text_from_href" "FsspecStacIO.write_text_to_href"
            "v0.5.0" b)
    ∧ ( FsspecStacIO.write_text_from_href hr t k b).1
      = ( FsspecStacIO.write_text_to_href hr t k b).1
    ∧ ( FsspecStacIO.write_text_from_href hr t k b).2.store
      = ( FsspecStacIO.write_text_to_href hr t k b).2.store
    ∧ ( FsspecStacIO.write_text_from_href hr t k b).2.trace
      = b.trace
        ++ [Event.deprecationNotice "FsspecStacIO.write_text_from_href"
              "FsspecStacIO.write_text_to_href" "v0.5.0"]
        ++ [Event.openW (fspath hr) k, Event.close (fspath hr)]
    ∧ ( FsspecStacIO.write_text_to_href hr t k b).2.trace
      = b.trace ++ [Event.openW (fspath hr) k, Event.close (fspath hr)] := by
  refine ⟨rfl, ?_, ?_, ?_, ?_⟩ <;>
    cases hf : alookup b.writeFault (fspath hr) <;>
      simp [ FsspecStacIO.write_text_from_href, FsspecStacIO.write_text_to_href, deprecate, hf]

/-- C7: installing the backend-aware strategy is idempotent: a second call
leaves the very same default installed, and the facade reads and writes
behave identically after one call or two. -/
theorem c7_use_fsspec_idempotent (w : World) (h t : String)
    (m : Option ReadHrefModifier) (k : KwArgs) :
    use_fsspec (use_fsspec w) = use_fsspec w
    ∧ (use_fsspec w).default = fsspecStacIO
    ∧ read_text h m k (use_fsspec (use_fsspec w)) = read_text h m k (use_fsspec w)
    ∧ write_text h t k (use_fsspec (use_fsspec w)) = write_text h t k (use_fsspec w) :=
  ⟨rfl, rfl, rfl, rfl⟩

/-- C10: a path-like href argument behaves exactly like its string
representation in the backend-aware read and write, because both normalize
the href with `os.fspath` first. -/
theorem c10_pathlike_href_normalized (s t : String) (k : KwArgs) (b : Backend) :
    FsspecStacIO.read_text_from_href (HrefArg.pathLike s) k b
      = FsspecStacIO.read_text_from_href (HrefArg.str s) k b
    ∧ FsspecStacIO.write_text_to_href (HrefArg.pathLike s) t k b
      = FsspecStacIO.write_text_to_href (HrefArg.str s) t k b
    ∧ fspath (HrefArg.pathLike s) = fspath (HrefArg.str s) :=
  ⟨rfl, rfl, rfl⟩

/-- Counterexample to C2 as stated: with the backend-aware strategy installed,
the facade `write_text` does not equal a direct call to the strategy's
`write_text_to_href` — the observable behavior differs, because the facade
actually calls the deprecated alias `write_text_from_href`, which emits a
deprecation notice first. -/
theorem c2_counterexample :
    write_text "hx" "T" [] demoWorld
      ≠ liftB demoWorld
          (demoWorld.default.write_text_to_href (HrefArg.str "hx") "T" [] demoWorld.backend) := by
  intro hcontra
  exact absurd (congrArg (fun p => p.2.backend.trace) hcontra) (by decide)

/-- C2 (amended): the facade `write_text` forwards href, text and options
verbatim to the current default strategy's `write_text_from_href` (the
deprecated alias); with the backend-aware strategy installed, that alias
emits a deprecation notice and forwards unchanged to `write_text_to_href`,
so the return value and the backend-visible store effect are exactly those
of `write_text_to_href`. -/
theorem c2_write_text_delegation (h t : String) (k : KwArgs) (w : World)
    (hdef : w.default = fsspecStacIO) :
    write_text h t k w
      = liftB w (w.default.write_text_from_href (HrefArg.str h) t k w.backend)
    ∧ (write_text h t k w).1
      = ( FsspecStacIO.write_text_to_href (HrefArg.str h) t k w.backend).1
    ∧ (write_text h t k w).2.backend.store
      = ( FsspecStacIO.write_text_to_href (HrefArg.str h) t k w.backend).2.store := by
  have hti := write_text_to_href_trace_independent (HrefArg.str h) t k w.backend
    (w.backend.trace
      ++ [Event.deprecationNotice "FsspecStacIO.write_text_from_href"
            "FsspecStacIO.write_text_to_href" "v0.5.0"])
  refine ⟨rfl, ?_, ?_⟩
  · simpa [write_text, liftB, hdef, fsspecStacIO, FsspecStacIO.write_text_from_href, deprecate]
      using hti.1
  · simpa [write_text, liftB, hdef, fsspecStacIO, FsspecStacIO.write_text_from_href, deprecate]
      using hti.2

/-- Witness for C2 (amended) at a concrete href, text, option set and world. -/
theorem c2_witness :
    demoWorld.default = fsspecStacIO
    ∧ (write_text "hx" "T" [("k", "v")] demoWorld
        = liftB demoWorld
            (demoWorld.default.write_text_from_href (HrefArg.str "hx") "T" [("k", "v")]
              demoWorld.backend)
      ∧ (write_text "hx" "T" [("k", "v")] demoWorld).1
        = ( FsspecStacIO.write_text_to_href (HrefArg.str "hx") "T" [("k", "v")]
            demoWorld.backend).1
      ∧ (write_text "hx" "T" [("k", "v")] demoWorld).2.backend.store
        = ( FsspecStacIO.write_text_to_href (HrefArg.str "hx") "T" [("k", "v")]
            demoWorld.backend).2.store) :=
  ⟨rfl, c2_write_text_delegation "hx" "T" [("k", "v")] demoWorld rfl⟩

/-- C5: with the backend-aware strategy installed, writing text to a writable
href through the facade and then reading that href back returns exactly the
written text. -/
theorem c5_write_read_roundtrip (h t : String) (w : World)
    (hdef : w.default = fsspecStacIO)
    (hwritable : alookup w.backend.writeFault h = none) :
    (write_text h t [] w).1 = Except.ok ()
    ∧ (read_text h none [] (write_text h t [] w).2).1 = Except.ok t := by
  constructor
  · simp [write_text, liftB, hdef, fsspecStacIO, FsspecStacIO.write_text_from_href,
      FsspecStacIO.write_text_to_href, deprecate, fspath, hwritable]
  · simp [write_text, read_text, liftB, hdef, fsspecStacIO, FsspecStacIO.write_text_from_href,
      FsspecStacIO.write_text_to_href, FsspecStacIO.read_text_from_href, deprecate, fspath,
      hwritable, alookup]

/-- Witness for C5 at a concrete writable href and text. -/
theorem c5_witness :
    demoWorld.default = fsspecStacIO
    ∧ alookup demoWorld.backend.writeFault "hx" = none
    ∧ ((write_text "hx" "payload" [] demoWorld).1 = Except.ok ()
      ∧ (read_text "hx" none [] (write_text "hx" "payload" [] demoWorld).2).1
        = Except.ok "payload") :=
  ⟨rfl, by decide, c5_write_read_roundtrip "hx" "payload" demoWorld rfl (by decide)⟩

/-- C8: the backend handle is released on every exit path: whenever the
backend-aware read opens a resource, its trace gains exactly an open event
followed by a close event — on the string, bytes, decode-failure,
unsupported-payload and read-fault paths alike — the only close-free path
being the one where the open itself fails and no handle ever exists; the
backend-aware write always closes the handle, on both the success path and
the mid-write-fault path. -/
theorem c8_handle_released_on_every_path (hr : HrefArg) (t : String) (k : KwArgs) (b : Backend) :
    (alookup b.store (fspath hr) = none
        ∧ ( FsspecStacIO.read_text_from_href hr k b).2 = b
      ∨ ( FsspecStacIO.read_text_from_href hr k b).2.trace
          = b.trace ++ [Event.openR (fspath hr) k, Event.close (fspath hr)])
    ∧ ( FsspecStacIO.write_text_to_href hr t k b).2.trace
      = b.trace ++ [Event.openW (fspath hr) k, Event.close (fspath hr)] := by
  constructor
  · cases hs : alookup b.store (fspath hr) with
    | none => exact Or.inl ⟨rfl, by simp [ FsspecStacIO.read_text_from_href, hs]⟩
    | some p =>
      refine Or.inr ?_
      cases p with
      | str s => simp [ FsspecStacIO.read_text_from_href, hs]
      | bytes bs =>
        cases hd : utf8Decode bs <;> simp [ FsspecStacIO.read_text_from_href, hs, hd]
      | other r => simp [ FsspecStacIO.read_text_from_href, hs]
      | raiseOnRead e => simp [ FsspecStacIO.read_text_from_href, hs]
  · cases hf : alookup b.writeFault (fspath hr) <;>
      simp [ FsspecStacIO.write_text_to_href, hf]

/-- C9: errors are propagated unchanged: a failure raised by the
caller-supplied modifier surfaces from `read_text` as-is with the world
untouched; with the backend-aware strategy installed, a backend fault raised
during the read surfaces from `read_text` as-is, and a backend fault raised
during the write surfaces from `write_text` as-is — no wrapping, no retry,
no fallback value. -/
theorem c9_errors_propagate_unchanged :
    (∀ (h : String) (m : ReadHrefModifier) (k : KwArgs) (w : World) (e : PyErr),
      m h = Except.error e → read_text h (some m) k w = (Except.error e, w))
    ∧ (∀ (h : String) (k : KwArgs) (w : World) (e : PyErr),
      w.default = fsspecStacIO →
      alookup w.backend.store h = some (Payload.raiseOnRead e) →
      (read_text h none k w).1 = Except.error e)
    ∧ (∀ (h t : String) (k : KwArgs) (w : World) (e : PyErr),
      w.default = fsspecStacIO →
      alookup w.backend.writeFault h = some e →
      (write_text h t k w).1 = Except.error e) := by
  refine ⟨?_, ?_, ?_⟩
  · intro h m k w e hm
    simp [read_text, hm]
  · intro h k w e hdef hs
    simp [read_text, liftB, hdef, fsspecStacIO, FsspecStacIO.read_text_from_href, fspath, hs]
  · intro h t k w e hdef hf
    simp [write_text, liftB, hdef, fsspecStacIO, FsspecStacIO.write_text_from_href,
      FsspecStacIO.write_text_to_href, deprecate, fspath, hf]

/-- Witness for C9: a raising modifier, a read fault and a write fault, each
at a concrete input, each surfacing unchanged. -/
theorem c9_witness :
    ((fun _ => Except.error (PyErr.modifierError "boom") : ReadHrefModifier) "ha"
        = Except.error (PyErr.modifierError "boom")
      ∧ read_text "ha" (some fun _ => Except.error (PyErr.modifierError "boom")) [] demoWorld
        = (Except.error (PyErr.modifierError "boom"), demoWorld))
    ∧ (alookup demoWorld.backend.store "hr"
          = some (Payload.raiseOnRead (PyErr.backendError "network down"))
      ∧ (read_text "hr" none [] demoWorld).1 = Except.error (PyErr.backendError "network down"))
    ∧ (alookup demoWorld.backend.writeFault "hw" = some (PyErr.backendError "disk full")
      ∧ (write_text "hw" "T" [] demoWorld).1 = Except.error (PyErr.backendError "disk full")) :=
  ⟨⟨rfl, c9_errors_propagate_unchanged.1 "ha" (fun _ => Except.error (PyErr.modifierError "boom"))
      [] demoWorld (PyErr.modifierError "boom") rfl⟩,
   ⟨by decide, c9_errors_propagate_unchanged.2.1 "hr" [] demoWorld
      (PyErr.backendError "network down") rfl (by decide)⟩,
   ⟨by decide, c9_errors_propagate_unchanged.2.2 "hw" "T" [] demoWorld
      (PyErr.backendError "disk full") rfl (by decide)⟩⟩
